import Mathlib

/-!
Verification of the Broadcom STB wake-timer RTC driver
(drivers/rtc/rtc-brcmstb-waketimer.c).

The driver state is embedded shallowly: the software fields of
struct brcmstb_waketmr (alarm_en, alarm_expired, rtc_alarm, rate, and
whether a dedicated alarm interrupt line exists), the hardware registers
the driver touches (counter, alarm compare, prescaler, and the alarm
pending bit of the event register), and bookkeeping for the alarm
interrupt line (its disable depth and the cumulative counts of
enable_irq and disable_irq calls issued by the driver).  With
IRQF_NO_AUTOEN the line starts with depth 1.

Machine integers are Nat reduced mod 2^32 where the C code does u32
arithmetic; the C cast (int)(a - b) used for signed comparison of two
u32 values is the function s32diff below.

The two loops that race against live hardware (the wraparound loop of
brcmstb_waketmr_set_alarm and the rollover-retry loop of wktmr_read)
are modelled over streams of observed hardware reads, with fuel: the
i-th counter read is nowS i, the i-th pending-bit observation is
pendS i, and a result of none means the fuel ran out before the loop
exited.
-/

/-- 2^32, the modulus of the 32-bit hardware registers. -/
def U32 : Nat := 4294967296

/-- Reinterpret a u32 value as a signed 32-bit integer (C cast (int)x). -/
def toS32 (x : Nat) : Int :=
  if x % U32 < 2147483648 then ((x % U32 : Nat) : Int)
  else ((x % U32 : Nat) : Int) - (U32 : Int)

/-- The C expression (int)(a - b) on two u32 values: unsigned wrapping
subtraction reinterpreted as signed. -/
def s32diff (a b : Nat) : Int := toS32 ((a % U32 + U32 - b % U32) % U32)

/-- EINVAL error number. -/
def EINVAL : Int := 22

/-- Driver state: software fields of struct brcmstb_waketmr, the
hardware registers the driver reads and writes, and alarm-IRQ-line
bookkeeping (disable depth, cumulative enable and disable calls). -/
structure WkTimer where
  alarm_en : Bool
  alarm_expired : Bool
  rtc_alarm : Nat
  rate : Nat
  has_alarm_irq : Bool
  counter : Nat
  alarm : Nat
  prescaler : Nat
  pending : Bool
  depth : Nat
  enables : Nat
  disables : Nat
deriving DecidableEq

/-- disable_irq on the alarm line: depth grows, one more disable call. -/
def disable_irq (s : WkTimer) : WkTimer :=
  { s with depth := s.depth + 1, disables := s.disables + 1 }

/-- disable_irq_nosync has the same depth/count effect as disable_irq. -/
def disable_irq_nosync (s : WkTimer) : WkTimer := disable_irq s

/-- enable_irq on the alarm line: depth shrinks, one more enable call. -/
def enable_irq (s : WkTimer) : WkTimer :=
  { s with depth := s.depth - 1, enables := s.enables + 1 }

/-- brcmstb_waketmr_is_pending: the alarm-event bit of the event register. -/
def brcmstb_waketmr_is_pending (s : WkTimer) : Bool := s.pending

/-- brcmstb_waketmr_clear_alarm: disable the line if armed, drop
alarm_en, park the alarm register at counter - 1, clear the pending
bit (the force read-back has no state effect), and consume the
alarm_expired latch with one balancing enable_irq. -/
def brcmstb_waketmr_clear_alarm (s : WkTimer) : WkTimer :=
  let s1 := if s.alarm_en && s.has_alarm_irq then disable_irq s else s
  let s2 := { s1 with alarm_en := false }
  let s3 := { s2 with alarm := (s2.counter % U32 + U32 - 1) % U32 }
  let s4 := { s3 with pending := false }
  if s4.alarm_expired then enable_irq { s4 with alarm_expired := false } else s4

/-- brcmstb_waketmr_alarm_enable: returns the C return value (0 or
-EINVAL) and the new state. -/
def brcmstb_waketmr_alarm_enable (s : WkTimer) (enabled : Bool) : Int × WkTimer :=
  if enabled && !s.alarm_en then
    if 0 ≤ s32diff s.counter s.alarm ∧ s.pending = false then (-EINVAL, s)
    else
      let s1 := { s with alarm_en := true }
      if s1.has_alarm_irq then
        let s2 := if s1.alarm_expired then enable_irq { s1 with alarm_expired := false } else s1
        (0, enable_irq s2)
      else (0, s1)
  else if !enabled && s.alarm_en then
    let s1 := if s.has_alarm_irq then disable_irq s else s
    (0, { s1 with alarm_en := false })
  else (0, s)

/-- brcmstb_alarm_irq, the handler of the dedicated alarm line; the
argument is the value device_may_wakeup returns during the call.  The
Bool result records whether rtc_update_irq was called (an alarm
notification was posted to the RTC layer). -/
def brcmstb_alarm_irq (may_wakeup : Bool) (s : WkTimer) : WkTimer × Bool :=
  if !brcmstb_waketmr_is_pending s then (s, false)
  else if s.alarm_en then
    if may_wakeup then
      ({ disable_irq_nosync s with alarm_expired := true }, true)
    else
      ({ s with pending := false }, true)
  else
    ({ s with pending := false }, false)

/-- brcmstb_waketmr_getalarm: reports (enabled, alarm seconds, pending)
and leaves the state untouched. -/
def brcmstb_waketmr_getalarm (s : WkTimer) : (Bool × Nat × Bool) × WkTimer :=
  ((s.alarm_en, s.rtc_alarm, s.pending), s)

/-- brcmstb_waketmr_settime: writel of the time64_t seconds value into
the 32-bit counter register truncates mod 2^32. -/
def brcmstb_waketmr_settime (s : WkTimer) (sec : Nat) : WkTimer :=
  { s with counter := sec % U32 }

/-- The rollover-retry read loop of wktmr_read: read counter (secS i)
then prescaler-value (preS i); retry while the prescaler-value is at or
above the tick rate; on exit report (seconds, rate - prescaler_value). -/
def wktmr_read (rate : Nat) (secS preS : Nat → Nat) : Nat → Nat → Option (Nat × Nat)
  | 0, _ => none
  | fuel + 1, i =>
    if rate ≤ preS i then wktmr_read rate secS preS fuel (i + 1)
    else some (secS i, rate - preS i)

/-- brcmstb_waketmr_gettime under the no-intervening-tick assumption:
every counter read of the retry loop returns the current counter. -/
def brcmstb_waketmr_gettime (s : WkTimer) (preS : Nat → Nat) (fuel : Nat) :
    Option (Nat × Nat) :=
  wktmr_read s.rate (fun _ => s.counter) preS fuel 0

/-- The wraparound/race loop of brcmstb_waketmr_set_alarm: while the
signed difference of the armed seconds and the freshly read counter is
at most zero and the pending bit is not set, rewrite the deadline to
counter + 1 and re-read.  Returns the final alarm-register value and
the index of the last counter read, or none if the fuel ran out. -/
def armLoop (nowS : Nat → Nat) (pendS : Nat → Bool) : Nat → Nat → Nat → Option (Nat × Nat)
  | 0, _, _ => none
  | fuel + 1, secs, i =>
    if s32diff secs (nowS i) ≤ 0 ∧ pendS i = false then
      armLoop nowS pendS fuel ((nowS i % U32 + 1) % U32) (i + 1)
    else some (secs, i)

/-- brcmstb_waketmr_set_alarm: clear the alarm, re-assert the prescaler
divisor, write the requested seconds into the alarm register, and run
the wraparound loop against the counter-read stream nowS and
pending-bit stream pendS. -/
def brcmstb_waketmr_set_alarm (s : WkTimer) (secs : Nat)
    (nowS : Nat → Nat) (pendS : Nat → Bool) (fuel : Nat) : Option WkTimer :=
  let s1 := brcmstb_waketmr_clear_alarm s
  let s2 := { s1 with prescaler := s1.rate }
  match armLoop nowS pendS fuel (secs % U32) 0 with
  | none => none
  | some (a, j) =>
      some { s2 with alarm := a % U32, counter := nowS j % U32, pending := pendS j }

/-- Divergence of the wraparound loop: no amount of fuel makes it exit. -/
def armLoopDiverges (nowS : Nat → Nat) (pendS : Nat → Bool) (secs i : Nat) : Prop :=
  ∀ fuel, armLoop nowS pendS fuel secs i = none

/-- Wake-enable depths of the two interrupt lines, for
brcmstb_waketmr_prepare_suspend. -/
structure WakeState where
  wake_depth : Nat
  alarm_depth : Nat
deriving DecidableEq

/-- brcmstb_waketmr_prepare_suspend: the Int arguments are the results
the two enable_irq_wake calls would return (nonzero means failure, in
which case that call leaves the wake depth unchanged). -/
def brcmstb_waketmr_prepare_suspend (may_wakeup alarm_en has_alarm_irq : Bool)
    (wake_ret alarm_ret : Int) (w : WakeState) : Int × WakeState :=
  if may_wakeup then
    if wake_ret ≠ 0 then (wake_ret, w)
    else
      let w1 : WakeState := { w with wake_depth := w.wake_depth + 1 }
      if alarm_en && has_alarm_irq then
        if alarm_ret ≠ 0 then (alarm_ret, { w1 with wake_depth := w1.wake_depth - 1 })
        else (0, { w1 with alarm_depth := w1.alarm_depth + 1 })
      else (0, w1)
  else (0, w)

/-- The state after probe with a dedicated alarm line: alarm disabled,
latch clear, line requested with IRQF_NO_AUTOEN (depth 1), no enable or
disable calls issued yet, default 27 MHz tick rate. -/
def init0 : WkTimer :=
  { alarm_en := false, alarm_expired := false, rtc_alarm := 0, rate := 27000000,
    has_alarm_irq := true, counter := 1000, alarm := 999, prescaler := 27000000,
    pending := false, depth := 1, enables := 0, disables := 0 }

/-- A concrete armed state in which the alarm has just fired: the alarm
line is enabled (depth 0) and the pending bit is set. -/
def s5 : WkTimer :=
  { alarm_en := true, alarm_expired := false, rtc_alarm := 5000, rate := 27000000,
    has_alarm_irq := true, counter := 5000, alarm := 5000, prescaler := 27000000,
    pending := true, depth := 0, enables := 1, disables := 0 }

/-- States reachable from a post-probe state by the alarm-related
operations: enable_alarm(true/false), clear-alarm, an alarm-IRQ firing
(the handler only runs while the line is enabled, depth 0), and
autonomous hardware movement of the counter and pending bit. -/
inductive Reach : WkTimer → Prop where
  | init (s : WkTimer) : s.alarm_en = false → s.alarm_expired = false →
      s.depth = 1 → s.enables = 0 → s.disables = 0 → s.has_alarm_irq = true →
      Reach s
  | enable (s : WkTimer) (b : Bool) : Reach s →
      Reach (brcmstb_waketmr_alarm_enable s b).2
  | clear (s : WkTimer) : Reach s → Reach (brcmstb_waketmr_clear_alarm s)
  | fire (s : WkTimer) (w : Bool) : Reach s → s.depth = 0 →
      Reach (brcmstb_alarm_irq w s).1
  | hw (s : WkTimer) (c : Nat) (p : Bool) : Reach s →
      Reach { s with counter := c, pending := p }

/-- The interrupt-coordination invariant: the alarm line exists, the
disable depth is exactly the idle baseline (1 when disarmed, 0 when
armed) plus one extra level while the expired latch is held, and depth
accounts for the enable/disable call history starting from the
IRQF_NO_AUTOEN depth of 1. -/
def IrqInv (s : WkTimer) : Prop :=
  s.has_alarm_irq = true ∧
  s.depth = (if s.alarm_en then 0 else 1) + (if s.alarm_expired then 1 else 0) ∧
  s.depth + s.enables = 1 + s.disables

theorem s32diff_self (x : Nat) : s32diff x x = 0 := by
  unfold s32diff toS32
  simp only [U32]
  split <;> omega

theorem s32diff_succ (x : Nat) : s32diff ((x % U32 + 1) % U32) x = 1 := by
  unfold s32diff toS32
  simp only [U32]
  split <;> omega

theorem s32diff_mod_left (a b : Nat) : s32diff (a % U32) b = s32diff a b := by
  unfold s32diff
  rw [Nat.mod_mod_of_dvd a dvd_rfl]

theorem s32diff_mod_right (a b : Nat) : s32diff a (b % U32) = s32diff a b := by
  unfold s32diff
  rw [Nat.mod_mod_of_dvd b dvd_rfl]

/-- Claim C4: in a state with the alarm disabled where the counter has
reached or passed the alarm register (signed difference at least zero)
and the pending bit is clear, enable_alarm(true) fails with -EINVAL
and the state is completely unchanged. -/
theorem C4_enable_past_alarm_einval (s : WkTimer) (h1 : s.alarm_en = false)
    (h2 : 0 ≤ s32diff s.counter s.alarm) (h3 : s.pending = false) :
    brcmstb_waketmr_alarm_enable s true = (-EINVAL, s) := by
  unfold brcmstb_waketmr_alarm_enable
  simp [h1, h2, h3]

/-- Witness for C4 at the spec scenario counter = 2000, alarm = 1500,
pending clear. -/
theorem C4_enable_past_alarm_einval_witness :
    brcmstb_waketmr_alarm_enable
      { init0 with counter := 2000, alarm := 1500 } true =
      (-EINVAL, { init0 with counter := 2000, alarm := 1500 }) :=
  C4_enable_past_alarm_einval { init0 with counter := 2000, alarm := 1500 }
    (by decide) (by decide) (by decide)

/-- Claim C8: the alarm-IRQ handler invoked while the pending bit is
clear is a complete no-op: the state is returned unchanged and no
notification is posted. -/
theorem C8_spurious_irq_noop (s : WkTimer) (m : Bool) (h : s.pending = false) :
    brcmstb_alarm_irq m s = (s, false) := by
  unfold brcmstb_alarm_irq brcmstb_waketmr_is_pending
  simp [h]

/-- Witness for C8 at the post-probe state. -/
theorem C8_spurious_irq_noop_witness :
    brcmstb_alarm_irq true init0 = (init0, false) :=
  C8_spurious_irq_noop init0 true (by decide)

/-- Claim C9: enable_alarm(false) is idempotent: a second call right
after a first one returns 0 and changes nothing (after the first call
alarm_en is false, so the second call takes the no-op branch). -/
theorem C9_disable_idempotent (s : WkTimer) :
    brcmstb_waketmr_alarm_enable (brcmstb_waketmr_alarm_enable s false).2 false =
      (0, (brcmstb_waketmr_alarm_enable s false).2) := by
  unfold brcmstb_waketmr_alarm_enable
  cases he : s.alarm_en <;> cases hi : s.has_alarm_irq <;>
    simp [he, hi, disable_irq]

/-- Claim C10: enable_alarm(true) while the alarm is already enabled is
a pure no-op returning success: the past-deadline validity check is
only performed on the disabled-to-enabled transition, so no -EINVAL is
possible and the interrupt line is not enabled again. -/
theorem C10_reenable_noop (s : WkTimer) (h : s.alarm_en = true) :
    brcmstb_waketmr_alarm_enable s true = (0, s) := by
  unfold brcmstb_waketmr_alarm_enable
  simp [h]

/-- Witness for C10: re-enabling with the counter already past the
alarm register still succeeds and changes nothing. -/
theorem C10_reenable_noop_witness :
    brcmstb_waketmr_alarm_enable
      { init0 with alarm_en := true, counter := 2000, alarm := 1500, depth := 0 } true =
      (0, { init0 with alarm_en := true, counter := 2000, alarm := 1500, depth := 0 }) :=
  C10_reenable_noop
    { init0 with alarm_en := true, counter := 2000, alarm := 1500, depth := 0 }
    (by decide)

/-- Exit condition of the wraparound loop: whenever it returns, the
final alarm value is strictly ahead of the last counter read in signed
32-bit arithmetic, or the pending bit was observed set. -/
theorem armLoop_post (nowS : Nat → Nat) (pendS : Nat → Bool) :
    ∀ fuel secs i a j, armLoop nowS pendS fuel secs i = some (a, j) →
      0 < s32diff a (nowS j) ∨ pendS j = true := by
  intro fuel
  induction fuel with
  | zero => intro secs i a j h; simp [armLoop] at h
  | succ n ih =>
    intro secs i a j h
    unfold armLoop at h
    split at h
    · exact ih _ _ _ _ h
    · rename_i hc
      simp only [Option.some.injEq, Prod.mk.injEq] at h
      obtain ⟨rfl, rfl⟩ := h
      rcases not_and_or.mp hc with h1 | h2
      · exact Or.inl (lt_of_not_le h1)
      · simp only [Bool.not_eq_false] at h2
        exact Or.inr h2

/-- Claim C1: whenever brcmstb_waketmr_set_alarm completes, the alarm
register holds a value whose signed difference to the counter at
completion is strictly positive, or the pending bit is set: the alarm
is never parked silently in the past. -/
theorem C1_set_alarm_never_in_past (s : WkTimer) (secs : Nat) (nowS : Nat → Nat)
    (pendS : Nat → Bool) (fuel : Nat) (s' : WkTimer)
    (h : brcmstb_waketmr_set_alarm s secs nowS pendS fuel = some s') :
    0 < s32diff s'.alarm s'.counter ∨ s'.pending = true := by
  unfold brcmstb_waketmr_set_alarm at h
  rcases hm : armLoop nowS pendS fuel (secs % U32) 0 with _ | ⟨a, j⟩ <;> rw [hm] at h
  · simp at h
  · simp only [Option.some.injEq] at h
    subst h
    have hp := armLoop_post nowS pendS fuel (secs % U32) 0 a j hm
    simpa [s32diff_mod_left, s32diff_mod_right] using hp

/-- The state after arming at 1000 with the counter frozen at 1000: the
loop advances the deadline once, to 1001, as in the spec scenario. -/
def c1_final : WkTimer := { init0 with alarm := 1001 }

/-- Witness for C1 at deadline 1000 with the counter frozen at 1000. -/
theorem C1_set_alarm_never_in_past_witness :
    0 < s32diff c1_final.alarm c1_final.counter ∨ c1_final.pending = true :=
  C1_set_alarm_never_in_past init0 1000 (fun _ => 1000) (fun _ => false) 2 c1_final
    (by decide)

/-- A counter that gains exactly one tick between every deadline
rewrite and the following re-read keeps the wraparound loop running
forever: each rewritten deadline is passed again before it lands. -/
theorem armLoop_tick_diverges :
    ∀ fuel i, armLoop (fun k => k % U32) (fun _ => false) fuel (i % U32) i = none := by
  intro fuel
  induction fuel with
  | zero => intro i; rfl
  | succ n ih =>
    intro i
    have hmod : ((i % U32) % U32 + 1) % U32 = (i + 1) % U32 := by
      rw [Nat.mod_mod_of_dvd i dvd_rfl, Nat.mod_add_mod]
    have hs : s32diff (i % U32) (i % U32) ≤ 0 := by
      rw [s32diff_mod_left, s32diff_mod_right, s32diff_self]
    unfold armLoop
    rw [if_pos ⟨hs, rfl⟩, hmod]
    exact ih (i + 1)

/-- Counterexample to claim C6 as stated: bounded counter advancement
between the deadline rewrite and the re-read does not make the loop
terminate.  With deadline 0 and a counter observed as 0, 1, 2, ...
(advancing by exactly one, a bounded amount, per iteration) and the
pending bit never set, the loop never exits. -/
theorem C6_counterexample_bounded_advance :
    armLoopDiverges (fun k => k % U32) (fun _ => false) 0 0 := by
  intro fuel
  simpa using armLoop_tick_diverges fuel 0

/-- If the counter read at step j + 1 equals the counter read at step
j (the counter did not advance across that iteration), the loop exits
by step j + 1. -/
theorem armLoop_exits_after_stall (nowS : Nat → Nat) (pendS : Nat → Bool) (j : Nat)
    (h : nowS (j + 1) % U32 = nowS j % U32) :
    ∀ d i secs fuel, i + d = j → d + 2 ≤ fuel →
      (armLoop nowS pendS fuel secs i).isSome := by
  intro d
  induction d with
  | zero =>
    intro i secs fuel hi hf
    have hij : i = j := by omega
    subst hij
    obtain ⟨f, rfl⟩ : ∃ f, fuel = f + 1 + 1 := ⟨fuel - 2, by omega⟩
    unfold armLoop
    split
    · have h1 : s32diff ((nowS i % U32 + 1) % U32) (nowS (i + 1)) = 1 := by
        rw [← s32diff_mod_right, h, s32diff_mod_right]
        exact s32diff_succ (nowS i)
      unfold armLoop
      split
      · rename_i hc2
        rw [h1] at hc2
        exact absurd hc2.1 (by norm_num)
      · simp
    · simp
  | succ n ih =>
    intro i secs fuel hi hf
    obtain ⟨f, rfl⟩ : ∃ f, fuel = f + 1 := ⟨fuel - 1, by omega⟩
    unfold armLoop
    split
    · exact ih (i + 1) _ f (by omega) (by omega)
    · simp

/-- Claim C6 amended: the wraparound loop exits, with the deadline
strictly ahead of the counter or the pending bit set, provided some
iteration observes no counter advancement between the deadline rewrite
and the counter re-read (counter advancement bounded by one per
iteration alone does not suffice). -/
theorem C6_terminates_on_stall (nowS : Nat → Nat) (pendS : Nat → Bool)
    (secs j fuel : Nat) (h : nowS (j + 1) % U32 = nowS j % U32)
    (hf : j + 2 ≤ fuel) :
    ∃ a m, armLoop nowS pendS fuel secs 0 = some (a, m) ∧
      (0 < s32diff a (nowS m) ∨ pendS m = true) := by
  have hs := armLoop_exits_after_stall nowS pendS j h j 0 secs fuel (by omega) hf
  obtain ⟨⟨a, m⟩, hm⟩ := Option.isSome_iff_exists.mp hs
  exact ⟨a, m, hm, armLoop_post nowS pendS fuel secs 0 a m hm⟩

/-- Witness for the amended C6 with the counter frozen at 1000. -/
theorem C6_terminates_on_stall_witness :
    ∃ a m, armLoop (fun _ => 1000) (fun _ => false) 2 1000 0 = some (a, m) ∧
      (0 < s32diff a ((fun _ => 1000) m) ∨ (fun _ => false) m = true) :=
  C6_terminates_on_stall (fun _ => 1000) (fun _ => false) 1000 0 2 rfl (by omega)

/-- With a constant counter, the rollover-retry read returns that
counter value, and its sub-second part rate - prescaler_value lies
between 1 and rate inclusive. -/
theorem wktmr_read_post (rate c : Nat) (preS : Nat → Nat) :
    ∀ fuel i r p, wktmr_read rate (fun _ => c) preS fuel i = some (r, p) →
      r = c ∧ 1 ≤ p ∧ p ≤ rate := by
  intro fuel
  induction fuel with
  | zero => intro i r p h; simp [wktmr_read] at h
  | succ n ih =>
    intro i r p h
    unfold wktmr_read at h
    split at h
    · exact ih _ _ _ h
    · rename_i hc
      simp only [Option.some.injEq, Prod.mk.injEq] at h
      obtain ⟨h1, h2⟩ := h
      refine ⟨h1.symm, ?_, ?_⟩ <;> omega

/-- Counterexample to claim C3 as stated: when the prescaler-value
register reads 0, the sub-second value reported is rate - 0 = rate,
which is not strictly less than the configured tick rate. -/
theorem C3_counterexample_subsecond_at_rate :
    brcmstb_waketmr_gettime (brcmstb_waketmr_settime init0 5) (fun _ => 0) 1 =
      some (5, 27000000) ∧ ¬ (27000000 < 27000000) := by
  constructor
  · decide
  · decide

/-- Claim C3 amended: write_time(s) followed by read_time() with no
intervening counter tick returns s, and the sub-second value
rate - prescaler_value is at least 1 and at most the tick rate (it can
equal the rate, when the prescaler-value register reads zero). -/
theorem C3_round_trip (s : WkTimer) (sec : Nat) (preS : Nat → Nat) (fuel : Nat)
    (r p : Nat) (hs : sec < U32)
    (h : brcmstb_waketmr_gettime (brcmstb_waketmr_settime s sec) preS fuel =
      some (r, p)) :
    r = sec ∧ 1 ≤ p ∧ p ≤ s.rate := by
  unfold brcmstb_waketmr_gettime brcmstb_waketmr_settime at h
  simp only at h
  have hpost := wktmr_read_post s.rate (sec % U32) preS fuel 0 r p h
  rw [Nat.mod_eq_of_lt hs] at hpost
  exact hpost

/-- Witness for the amended C3: writing 7 and reading it back with the
prescaler-value at 100 returns 7 with sub-second part 26999900. -/
theorem C3_round_trip_witness :
    7 = 7 ∧ 1 ≤ 26999900 ∧ 26999900 ≤ init0.rate :=
  C3_round_trip init0 7 (fun _ => 100) 1 7 26999900 (by decide) (by decide)

/-- Claim C7: when the device may wake, the alarm is armed with a
dedicated line, the wake-line wake-enable succeeds and the alarm-line
wake-enable fails, brcmstb_waketmr_prepare_suspend undoes the wake-line
wake-enable and returns the failure, leaving the wake-enable state
exactly as before the call. -/
theorem C7_prepare_suspend_atomic (may_wakeup alarm_en has_alarm_irq : Bool)
    (alarm_ret : Int) (w : WakeState) (h1 : may_wakeup = true)
    (h2 : alarm_en = true) (h3 : has_alarm_irq = true) (h4 : alarm_ret ≠ 0) :
    brcmstb_waketmr_prepare_suspend may_wakeup alarm_en has_alarm_irq 0 alarm_ret w =
      (alarm_ret, w) := by
  subst h1; subst h2; subst h3
  obtain ⟨wd, ad⟩ := w
  unfold brcmstb_waketmr_prepare_suspend
  simp [h4]

/-- Witness for C7 with both wake depths at zero and failure code -5. -/
theorem C7_prepare_suspend_atomic_witness :
    brcmstb_waketmr_prepare_suspend true true true 0 (-5) ⟨0, 0⟩ = (-5, ⟨0, 0⟩) :=
  C7_prepare_suspend_atomic true true true (-5) ⟨0, 0⟩ rfl rfl rfl (by decide)

/-- brcmstb_waketmr_alarm_enable preserves the interrupt-coordination
invariant. -/
theorem alarm_enable_preserves_inv (s : WkTimer) (b : Bool) (h : IrqInv s) :
    IrqInv (brcmstb_waketmr_alarm_enable s b).2 := by
  obtain ⟨hi, hd, hb⟩ := h
  unfold IrqInv brcmstb_waketmr_alarm_enable enable_irq disable_irq
  cases b <;> cases he : s.alarm_en <;> cases hx : s.alarm_expired <;>
    simp_all <;> (try split) <;> (try simp_all) <;> omega

/-- brcmstb_waketmr_clear_alarm preserves the interrupt-coordination
invariant. -/
theorem clear_alarm_preserves_inv (s : WkTimer) (h : IrqInv s) :
    IrqInv (brcmstb_waketmr_clear_alarm s) := by
  obtain ⟨hi, hd, hb⟩ := h
  unfold IrqInv brcmstb_waketmr_clear_alarm enable_irq disable_irq
  cases he : s.alarm_en <;> cases hx : s.alarm_expired <;> simp_all <;> omega

/-- brcmstb_alarm_irq, run while the line is enabled (depth zero),
preserves the interrupt-coordination invariant. -/
theorem alarm_irq_preserves_inv (s : WkTimer) (w : Bool) (h : IrqInv s)
    (hdep : s.depth = 0) : IrqInv (brcmstb_alarm_irq w s).1 := by
  obtain ⟨hi, hd, hb⟩ := h
  have he : s.alarm_en = true := by
    cases he : s.alarm_en <;> cases hx : s.alarm_expired <;> simp_all
  have hx : s.alarm_expired = false := by
    cases hx : s.alarm_expired <;> simp_all
  unfold IrqInv brcmstb_alarm_irq brcmstb_waketmr_is_pending
    disable_irq_nosync disable_irq
  cases hp : s.pending <;> cases w <;> simp_all <;> (try omega)

/-- Hardware movement of the counter and pending bit preserves the
interrupt-coordination invariant. -/
theorem hw_preserves_inv (s : WkTimer) (c : Nat) (p : Bool) (h : IrqInv s) :
    IrqInv { s with counter := c, pending := p } := by
  obtain ⟨hi, hd, hb⟩ := h
  exact ⟨hi, hd, hb⟩

/-- Every reachable state satisfies the interrupt-coordination
invariant. -/
theorem reach_inv (s : WkTimer) (h : Reach s) : IrqInv s := by
  induction h with
  | init s h1 h2 h3 h4 h5 h6 => exact ⟨h6, by simp [h1, h2, h3], by omega⟩
  | enable s b hr ih => exact alarm_enable_preserves_inv s b ih
  | clear s hr ih => exact clear_alarm_preserves_inv s ih
  | fire s w hr hdep ih => exact alarm_irq_preserves_inv s w ih hdep
  | hw s c p hr ih => exact hw_preserves_inv s c p ih

/-- Claim C2: along every sequence of enable_alarm(true/false) calls,
clear-alarm operations and alarm-IRQ firings from the post-probe
state, the number of enable_irq calls on the alarm line never exceeds
the number of disable calls by more than one (counting the
IRQF_NO_AUTOEN initial disable depth of 1), and alarm_expired holds
exactly when the line carries one extra disable level above its normal
armed/idle baseline, pending consumption of the expired event. -/
theorem C2_call_balance_invariant (s : WkTimer) (h : Reach s) :
    s.enables ≤ s.disables + 1 ∧
    (s.alarm_expired = true ↔
      s.depth = (if s.alarm_en = true then 0 else 1) + 1) := by
  obtain ⟨hi, hd, hb⟩ := reach_inv s h
  constructor
  · omega
  · cases hx : s.alarm_expired <;> cases he : s.alarm_en <;> simp_all <;> (try omega)

/-- Witness for C2 at the post-probe state. -/
theorem C2_call_balance_invariant_witness :
    init0.enables ≤ init0.disables + 1 ∧
    (init0.alarm_expired = true ↔
      init0.depth = (if init0.alarm_en = true then 0 else 1) + 1) :=
  C2_call_balance_invariant init0 (Reach.init init0 rfl rfl rfl rfl rfl rfl)

/-- Counterexample to claim C5 as stated: in the concrete armed state
s5 the alarm fires via the dedicated line (wake-capable), latching
alarm_expired; but the next read_alarm leaves the latch set, and the
next enable_alarm(true) — taken while alarm_en is still true — is a
no-op that neither clears the latch nor issues any enable call. -/
theorem C5_counterexample_latch_not_cleared :
    (brcmstb_alarm_irq true s5).1.alarm_expired = true ∧
    (brcmstb_waketmr_getalarm (brcmstb_alarm_irq true s5).1).2.alarm_expired = true ∧
    (brcmstb_waketmr_alarm_enable (brcmstb_alarm_irq true s5).1 true).2.alarm_expired
      = true ∧
    (brcmstb_waketmr_alarm_enable (brcmstb_alarm_irq true s5).1 true).2.enables
      = s5.enables := by
  decide

/-- Claim C5 amended: when the device may wake and the handler fires
with the alarm enabled and the pending bit set, it disables the line
without acknowledging the hardware event, latches alarm_expired and
posts an RTC alarm notification; read_alarm never modifies the state
(so it does not clear the latch); the latch is instead consumed, with
exactly one balancing enable call, by the next clear-alarm, or by
enable_alarm(true) reached from the disabled state, which issues the
balancing enable plus the normal arming enable and restores the line
depth. -/
theorem C5_fire_and_consume (s : WkTimer) (hp : s.pending = true)
    (he : s.alarm_en = true) (hi : s.has_alarm_irq = true) :
    ((brcmstb_alarm_irq true s).1.alarm_expired = true ∧
     (brcmstb_alarm_irq true s).1.depth = s.depth + 1 ∧
     (brcmstb_alarm_irq true s).1.disables = s.disables + 1 ∧
     (brcmstb_alarm_irq true s).1.pending = true ∧
     (brcmstb_alarm_irq true s).2 = true) ∧
    brcmstb_waketmr_getalarm (brcmstb_alarm_irq true s).1 =
      ((true, s.rtc_alarm, true), (brcmstb_alarm_irq true s).1) ∧
    ((brcmstb_waketmr_clear_alarm (brcmstb_alarm_irq true s).1).alarm_expired = false ∧
     (brcmstb_waketmr_clear_alarm (brcmstb_alarm_irq true s).1).enables
       = s.enables + 1) ∧
    ((brcmstb_waketmr_alarm_enable
        (brcmstb_waketmr_alarm_enable (brcmstb_alarm_irq true s).1 false).2
        true).2.alarm_expired = false ∧
     (brcmstb_waketmr_alarm_enable
        (brcmstb_waketmr_alarm_enable (brcmstb_alarm_irq true s).1 false).2
        true).2.enables = s.enables + 2 ∧
     (brcmstb_waketmr_alarm_enable
        (brcmstb_waketmr_alarm_enable (brcmstb_alarm_irq true s).1 false).2
        true).2.depth = s.depth) := by
  unfold brcmstb_alarm_irq brcmstb_waketmr_is_pending brcmstb_waketmr_getalarm
    brcmstb_waketmr_clear_alarm brcmstb_waketmr_alarm_enable
    disable_irq_nosync disable_irq enable_irq
  simp [hp, he, hi]

/-- Witness for the amended C5 at the concrete armed state s5. -/
theorem C5_fire_and_consume_witness :
    ((brcmstb_alarm_irq true s5).1.alarm_expired = true ∧
     (brcmstb_alarm_irq true s5).1.depth = s5.depth + 1 ∧
     (brcmstb_alarm_irq true s5).1.disables = s5.disables + 1 ∧
     (brcmstb_alarm_irq true s5).1.pending = true ∧
     (brcmstb_alarm_irq true s5).2 = true) ∧
    brcmstb_waketmr_getalarm (brcmstb_alarm_irq true s5).1 =
      ((true, s5.rtc_alarm, true), (brcmstb_alarm_irq true s5).1) ∧
    ((brcmstb_waketmr_clear_alarm (brcmstb_alarm_irq true s5).1).alarm_expired = false ∧
     (brcmstb_waketmr_clear_alarm (brcmstb_alarm_irq true s5).1).enables
       = s5.enables + 1) ∧
    ((brcmstb_waketmr_alarm_enable
        (brcmstb_waketmr_alarm_enable (brcmstb_alarm_irq true s5).1 false).2
        true).2.alarm_expired = false ∧
     (brcmstb_waketmr_alarm_enable
        (brcmstb_waketmr_alarm_enable (brcmstb_alarm_irq true s5).1 false).2
        true).2.enables = s5.enables + 2 ∧
     (brcmstb_waketmr_alarm_enable
        (brcmstb_waketmr_alarm_enable (brcmstb_alarm_irq true s5).1 false).2
        true).2.depth = s5.depth) :=
  C5_fire_and_consume s5 rfl rfl rfl
